import Mathlib

/-! ubuntu-insights: exposed-server configuration and the tests guard

A shallow embedding of `cmd/exposed-server/main.go` (`ServerConfig`, `initConfig`
and the `Run` closure built by `getCommands`) together with the guard exercised by
`shared/testsdetection/testsdetection_test.go`.

The configuration library (viper), the flag parser (cobra) and the logger (zerolog)
are external collaborators.  The library and the file system are a value of type
`Viper`; the parsed flags are a value of type `Flags`; the logger is the part of
`Process` that holds the global level and the lines written so far.
-/

namespace ExposedServer

/-! ## Data model -/

/-- Go's `error` values, kept as their message. -/
abbrev GoError := String

/-- The struct `ServerConfig` of main.go (lines 12-15). -/
structure ServerConfig where
  Port : Int
  Verbose : Bool
deriving DecidableEq, Repr

/-- The zero value `ServerConfig{}`, also the value of `var config ServerConfig`. -/
def ServerConfig.zero : ServerConfig := ⟨0, false⟩

/-- A scalar as the config library hands it over after parsing a file. -/
inductive Value where
  | int (n : Int)
  | bool (b : Bool)
  | str (s : String)
deriving DecidableEq, Repr

/-- The settings read from a config file, restricted to the two keys that match a
field of `ServerConfig`; `none` is a key the file does not set.  Other keys are
ignored by the decoder and are not represented. -/
structure Settings where
  port : Option Value
  verbose : Option Value
deriving DecidableEq, Repr

/-- The config library together with the file system it reads: the outcome of
`viper.SetConfigFile(filename)` followed by `viper.ReadInConfig()`, and the
coercions that `viper.Unmarshal` applies to a value destined for an `int` or a
`bool` field. -/
structure Viper where
  ReadInConfig : String → Except GoError Settings
  decodeInt : Value → Except GoError Int
  decodeBool : Value → Except GoError Bool

/-- Go multiple return `(ServerConfig, error)`; `none` is the nil error. -/
abbrev ConfigResult := ServerConfig × Option GoError

/-- Errors of the individual fields are gathered into one error. -/
def joinErrors : Option GoError → Option GoError → Option GoError
  | none, e => e
  | some e, none => some e
  | some e₁, some e₂ => some (e₁ ++ "; " ++ e₂)

/-- Decoding of one `int` field: an absent key leaves the field as it is, a value
that cannot be coerced leaves the field as it is and reports an error. -/
def decodeIntField (v : Viper) (raw : Option Value) (current : Int) : Int × Option GoError :=
  match raw with
  | none => (current, none)
  | some x =>
    match v.decodeInt x with
    | .ok n => (n, none)
    | .error e => (current, some e)

/-- Decoding of one `bool` field, as `decodeIntField`. -/
def decodeBoolField (v : Viper) (raw : Option Value) (current : Bool) : Bool × Option GoError :=
  match raw with
  | none => (current, none)
  | some x =>
    match v.decodeBool x with
    | .ok b => (b, none)
    | .error e => (current, some e)

/-- The call `viper.Unmarshal(&config)`: every field whose key is set is decoded
into the struct passed in, the other fields are left untouched.  The struct is
returned as it stands after the call, also when an error is reported. -/
def Unmarshal (v : Viper) (s : Settings) (config : ServerConfig) : ConfigResult :=
  let port := decodeIntField v s.port config.Port
  let verbose := decodeBoolField v s.verbose config.Verbose
  (⟨port.1, verbose.1⟩, joinErrors port.2 verbose.2)

/-- The function `initConfig` of main.go (lines 60-79). -/
def initConfig (v : Viper) (filename : String) : ConfigResult :=
  let config : ServerConfig := ServerConfig.zero
  if filename = "" then
    (⟨8080, false⟩, none)
  else
    match v.ReadInConfig filename with
    | .error err => (ServerConfig.zero, some err)
    | .ok settings =>
      match Unmarshal v settings config with
      | (_, some err) => (ServerConfig.zero, some err)
      | (config, none) => (config, none)

/-! ## Logger -/

/-- The levels of zerolog. -/
inductive Level where
  | TraceLevel
  | DebugLevel
  | InfoLevel
  | WarnLevel
  | ErrorLevel
  | FatalLevel
  | PanicLevel
  | NoLevel
  | Disabled
deriving DecidableEq, Repr

/-- The numeric value of a level. -/
def Level.toInt : Level → Int
  | .TraceLevel => -1
  | .DebugLevel => 0
  | .InfoLevel => 1
  | .WarnLevel => 2
  | .ErrorLevel => 3
  | .FatalLevel => 4
  | .PanicLevel => 5
  | .NoLevel => 6
  | .Disabled => 7

/-- The messages that `Run` logs. -/
inductive Msg where
  | failedToReadConfigFile (err : GoError)
  | verboseLoggingEnabled
  | startingServerOnPort (port : Int)
  | startingServerWithConfig (config : ServerConfig)
deriving DecidableEq, Repr

/-- One line written by the logger. -/
structure LogLine where
  level : Level
  msg : Msg
deriving DecidableEq, Repr

/-- The process-wide state that `Run` touches: zerolog's global level and the lines
written so far. -/
structure Process where
  globalLevel : Level
  written : List LogLine
deriving DecidableEq, Repr

/-- The call `zerolog.SetGlobalLevel`. -/
def SetGlobalLevel (l : Level) (p : Process) : Process :=
  ⟨l, p.written⟩

/-- An event of level `l` is written when `l` is not below the global level. -/
def logAt (l : Level) (m : Msg) (p : Process) : Process :=
  if p.globalLevel.toInt ≤ l.toInt then ⟨p.globalLevel, p.written ++ [⟨l, m⟩]⟩ else p

/-- The parsed flags, the variables `cfgFile`, `port` and `verbose` of `getCommands`. -/
structure Flags where
  cfgFile : String
  port : Int
  verbose : Bool
deriving DecidableEq, Repr

/-- The values the flag variables hold when no flag is supplied: the defaults
declared at lines 53-55 of main.go. -/
def flagDefaults : Flags := ⟨"", 8080, false⟩

/-- How an execution of `Run` ends: `log.Fatal` leaves the process with exit status
1; otherwise `Run` returns, and `config` is the value of its local variable then. -/
inductive RunResult where
  | exited (code : Nat) (p : Process)
  | returned (config : ServerConfig) (p : Process)
deriving DecidableEq, Repr

/-- The closure `Run` of the root command (main.go lines 33-50). -/
def Run (v : Viper) (f : Flags) (p : Process) : RunResult :=
  match initConfig v f.cfgFile with
  | (_, some err) => .exited 1 (logAt .FatalLevel (.failedToReadConfigFile err) p)
  | (config, none) =>
    let p := SetGlobalLevel .InfoLevel p
    let p :=
      if config.Verbose || f.verbose then
        logAt .DebugLevel .verboseLoggingEnabled (SetGlobalLevel .DebugLevel p)
      else p
    let config : ServerConfig := if f.port ≠ 0 then ⟨f.port, config.Verbose⟩ else config
    let p := logAt .InfoLevel (.startingServerOnPort config.Port) p
    let p := logAt .DebugLevel (.startingServerWithConfig config) p
    .returned config p

/-- The port the server is started on, when `Run` gets that far. -/
def RunResult.port : RunResult → Option Int
  | .exited _ _ => none
  | .returned config _ => some config.Port

/-- The `Verbose` field of the config at the end of `Run`. -/
def RunResult.verbose : RunResult → Option Bool
  | .exited _ _ => none
  | .returned config _ => some config.Verbose

/-- The global log level a run leaves behind; `none` when the process exited. -/
def RunResult.level : RunResult → Option Level
  | .exited _ _ => none
  | .returned _ p => some p.globalLevel

/-- The process state a run leaves behind. -/
def RunResult.process : RunResult → Process
  | .exited _ p => p
  | .returned _ p => p

/-! ## A concrete library state

The files written by the tests of main_test.go, under fixed names, and one file
more with a good and a bad field. -/

/-- Coercion to `int` on the values that occur in the test files. -/
def testDecodeInt : Value → Except GoError Int
  | .int n => .ok n
  | .bool b => .ok (if b then 1 else 0)
  | .str s => .error ("cannot parse as int: " ++ s)

/-- Coercion to `bool` on the values that occur in the test files. -/
def testDecodeBool : Value → Except GoError Bool
  | .bool b => .ok b
  | .int n => .ok (decide (n ≠ 0))
  | .str s => .error ("cannot parse as bool: " ++ s)

/-- The file system of the tests: `all.yaml` holds `port: 8081` and `verbose: true`,
`port.yaml` holds `port: 8081`, `verbose.yaml` holds `verbose: true`,
`quiet.yaml` holds `verbose: false`, `bad.yaml` holds `port: abc`, `mixed.yaml`
holds `port: abc` and `verbose: true`, `empty.yaml` is empty, and no other file
exists. -/
def testFiles (filename : String) : Except GoError Settings :=
  if filename = "all.yaml" then .ok ⟨some (.int 8081), some (.bool true)⟩
  else if filename = "port.yaml" then .ok ⟨some (.int 8081), none⟩
  else if filename = "verbose.yaml" then .ok ⟨none, some (.bool true)⟩
  else if filename = "quiet.yaml" then .ok ⟨none, some (.bool false)⟩
  else if filename = "bad.yaml" then .ok ⟨some (.str "abc"), none⟩
  else if filename = "mixed.yaml" then .ok ⟨some (.str "abc"), some (.bool true)⟩
  else if filename = "empty.yaml" then .ok ⟨none, none⟩
  else .error "open: no such file or directory"

/-- The library over the file system of the tests. -/
def testViper : Viper := ⟨testFiles, testDecodeInt, testDecodeBool⟩

/-- A fresh process: zerolog's initial global level, nothing written. -/
def freshProcess : Process := ⟨.DebugLevel, []⟩

/-! ## Reading a config file from the file system

The steps of `viper.ReadInConfig` on the file set by `viper.SetConfigFile`: the
config type is the extension of the file name, an unsupported type is refused
before the file is opened, the file is read, and its content is handed to the
decoder of the config type. -/

/-- The file system: the content of every file that exists. -/
abbrev FileSystem := String → Option String

/-- The scan of Go's `filepath.Ext`, from the last character backwards: `acc` is
the part of the name already passed. -/
def extScan : List Char → List Char → List Char
  | [], _ => []
  | c :: rest, acc =>
    if c = '/' then []
    else if c = '.' then c :: acc
    else extScan rest (c :: acc)

/-- Go's `filepath.Ext`: the suffix of the last path element that begins at its
last dot, empty when it has no dot. -/
def Ext (path : String) : String :=
  String.mk (extScan path.data.reverse [])

/-- The config type of a file: its extension without the dot (no config type is
set explicitly anywhere in the program). -/
def getConfigType (filename : String) : String :=
  if (Ext filename).data.length > 1 then String.mk ((Ext filename).data.drop 1) else ""

/-- The variable `viper.SupportedExts`. -/
def SupportedExts : List String :=
  ["json", "toml", "yaml", "yml", "properties", "props", "prop", "hcl", "tfvars",
   "dotenv", "env", "ini"]

/-- The decoding of a file's content: a zero-byte YAML document decodes to the
settings with no key, zero bytes are not a JSON document, and every other content
is left to `decode`, the decoders of the library by config type. -/
def unmarshalReader (decode : String → String → Except GoError Settings)
    (configType content : String) : Except GoError Settings :=
  if content = "" then
    if configType = "yaml" ∨ configType = "yml" then .ok ⟨none, none⟩
    else if configType = "json" then .error "unexpected end of JSON input"
    else decode configType content
  else decode configType content

/-- The call `viper.ReadInConfig()` after `viper.SetConfigFile(filename)`, over a
file system. -/
def ReadInConfigOn (fs : FileSystem) (decode : String → String → Except GoError Settings)
    (filename : String) : Except GoError Settings :=
  if getConfigType filename ∈ SupportedExts then
    match fs filename with
    | none => .error ("open " ++ filename ++ ": no such file or directory")
    | some content => unmarshalReader decode (getConfigType filename) content
  else .error ("Unsupported Config Type " ++ getConfigType filename)

/-- The library over a file system. -/
def viperOn (fs : FileSystem) (decode : String → String → Except GoError Settings)
    (decodeInt : Value → Except GoError Int) (decodeBool : Value → Except GoError Bool) :
    Viper :=
  ⟨ReadInConfigOn fs decode, decodeInt, decodeBool⟩

/-- A file system with three zero-byte files, `empty.yaml`, `empty.json` and
`empty`, and no other file. -/
def emptyFiles : FileSystem := fun filename =>
  if filename = "empty.yaml" ∨ filename = "empty.json" ∨ filename = "empty" then some ""
  else none

/-- A decoder that knows no content; the files of `emptyFiles` do not reach it. -/
def noDecode : String → String → Except GoError Settings :=
  fun _ content => .error ("cannot decode: " ++ content)

/-- The library over `emptyFiles`. -/
def emptyFilesViper : Viper := viperOn emptyFiles noDecode testDecodeInt testDecodeBool

end ExposedServer

/-! ## The tests guard -/

namespace testsdetection

/-- The two build markers the guard looks at: the binary was built by the standard
test harness, the binary was built with the `integrationtests` tag. -/
structure Markers where
  testing : Bool
  integrationtests : Bool
deriving DecidableEq, Repr

/-- How a call ends: it returns, leaving a process state, or it panics. -/
inductive Outcome (σ : Type) where
  | returned (s : σ)
  | panicked (reason : String)
deriving DecidableEq, Repr

/-- Modelled from the spec: the function `MustBeTesting` of
`shared/testsdetection`, whose source file is absent (only
`testsdetection_test.go` is present).  The spec, section 4.2: the test context is
determined by combining the two markers, either one is accepted; if neither is
present the call terminates the process; if one is present the call returns
normally with no observable side effect; nothing is memoised. -/
def MustBeTesting {σ : Type} (m : Markers) (s : σ) : Outcome σ :=
  if m.testing || m.integrationtests then .returned s
  else .panicked "MustBeTesting: not in tests"

/-- The call repeated `n + 1` times in sequence, stopping at the first panic. -/
def MustBeTestingRepeated {σ : Type} (m : Markers) : Nat → σ → Outcome σ
  | 0, s => MustBeTesting m s
  | n + 1, s =>
    match MustBeTesting m s with
    | .returned s => MustBeTestingRepeated m n s
    | .panicked r => .panicked r

end testsdetection

namespace ExposedServer

/-! ## Shared lemmas -/

theorem logAt_globalLevel (l : Level) (m : Msg) (p : Process) :
    (logAt l m p).globalLevel = p.globalLevel := by
  unfold logAt
  split <;> rfl

theorem initConfig_of_read (v : Viper) (filename : String) (s : Settings)
    (hne : filename ≠ "") (hread : v.ReadInConfig filename = .ok s) :
    initConfig v filename =
      match Unmarshal v s ServerConfig.zero with
      | (_, some err) => (ServerConfig.zero, some err)
      | (config, none) => (config, none) := by
  simp only [initConfig, if_neg hne, hread]

theorem Run_port (v : Viper) (f : Flags) (p : Process) (c : ServerConfig)
    (hok : initConfig v f.cfgFile = (c, none)) :
    (Run v f p).port = some (if f.port ≠ 0 then f.port else c.Port) := by
  simp only [Run, hok, RunResult.port]
  split <;> rfl

theorem Run_verbose (v : Viper) (f : Flags) (p : Process) (c : ServerConfig)
    (hok : initConfig v f.cfgFile = (c, none)) :
    (Run v f p).verbose = some c.Verbose := by
  simp only [Run, hok, RunResult.verbose]
  split <;> rfl

theorem Run_level (v : Viper) (f : Flags) (p : Process) (c : ServerConfig)
    (hok : initConfig v f.cfgFile = (c, none)) :
    (Run v f p).level =
      some (if (c.Verbose || f.verbose) = true then Level.DebugLevel else Level.InfoLevel) := by
  simp only [Run, hok, RunResult.level, logAt_globalLevel]
  split <;> simp [SetGlobalLevel, logAt_globalLevel]

theorem initConfig_no_file (v : Viper) :
    initConfig v "" = (⟨8080, false⟩, none) := by
  simp [initConfig]

theorem initConfig_of_no_key (v : Viper) (filename : String)
    (hne : filename ≠ "") (hread : v.ReadInConfig filename = .ok ⟨none, none⟩) :
    initConfig v filename = (ServerConfig.zero, none) := by
  rw [initConfig_of_read v filename _ hne hread]
  rfl

theorem Run_returns (v : Viper) (f : Flags) (p : Process) (c : ServerConfig)
    (hok : initConfig v f.cfgFile = (c, none)) :
    ∃ config p', Run v f p = .returned config p' := by
  simp only [Run, hok]
  exact ⟨_, _, rfl⟩

/-! ## Claims about `initConfig` -/

/-- C2: `initConfig` called with the empty filename returns exactly
`ServerConfig{Port: 8080, Verbose: false}` and a nil error, whatever the state of
the file system and of the config library. -/
theorem C2_initConfig_empty_filename (v : Viper) :
    initConfig v "" = (⟨8080, false⟩, none) :=
  initConfig_no_file v

/-- C3: for a non-empty filename, when reading the file fails or decoding it into
the struct reports an error, `initConfig` returns a non-nil error together with
the zero `ServerConfig{}`, whatever the decoder had already filled in. -/
theorem C3_initConfig_no_partial_success (v : Viper) (filename : String)
    (hne : filename ≠ "")
    (hfail : (∃ e, v.ReadInConfig filename = .error e) ∨
      (∃ s, v.ReadInConfig filename = .ok s ∧ (Unmarshal v s ServerConfig.zero).2 ≠ none)) :
    ∃ e, initConfig v filename = (ServerConfig.zero, some e) := by
  rcases hfail with ⟨e, he⟩ | ⟨s, hs, hdec⟩
  · exact ⟨e, by simp only [initConfig, if_neg hne, he]⟩
  · rw [initConfig_of_read v filename s hne hs]
    rcases hu : Unmarshal v s ServerConfig.zero with ⟨c, _ | e⟩
    · rw [hu] at hdec
      exact absurd rfl hdec
    · exact ⟨e, rfl⟩

/-- C3, at the file holding `port: abc` and `verbose: true`: the decoder reports an
error after setting `Verbose`, and `initConfig` hands back the zero config. -/
theorem C3_initConfig_no_partial_success_witness :
    (Unmarshal testViper ⟨some (.str "abc"), some (.bool true)⟩ ServerConfig.zero).1
        = ⟨0, true⟩ ∧
      ∃ e, initConfig testViper "mixed.yaml" = (ServerConfig.zero, some e) :=
  ⟨by decide,
   C3_initConfig_no_partial_success testViper "mixed.yaml" (by decide)
     (Or.inr ⟨⟨some (.str "abc"), some (.bool true)⟩, by rfl, by decide⟩)⟩

/-- C4 as stated fails: the file holding only `verbose: true` is read without
error and the returned `Port` is 0, the zero value, not the default 8080. -/
theorem C4_unset_port_is_not_default :
    initConfig testViper "verbose.yaml" = (⟨0, true⟩, none) ∧
      (initConfig testViper "verbose.yaml").1.Port ≠ 8080 := by
  decide

/-- C4, amended: for a file that is read and decoded without error, a field the
file leaves unset has the zero value of its type in the config `initConfig`
returns: `Port` is 0 when `port` is unset, `Verbose` is false when `verbose` is
unset. -/
theorem C4_unset_fields_keep_zero_value (v : Viper) (filename : String) (s : Settings)
    (hne : filename ≠ "") (hread : v.ReadInConfig filename = .ok s) :
    (s.port = none → ∀ b, decodeBoolField v s.verbose false = (b, none) →
        initConfig v filename = (⟨0, b⟩, none)) ∧
      (s.verbose = none → ∀ n, decodeIntField v s.port 0 = (n, none) →
        initConfig v filename = (⟨n, false⟩, none)) := by
  rw [initConfig_of_read v filename s hne hread]
  constructor
  · intro hp b hb
    simp [Unmarshal, ServerConfig.zero, hp, hb, decodeIntField, joinErrors]
  · intro hv n hn
    simp [Unmarshal, ServerConfig.zero, hv, hn, decodeBoolField, joinErrors]

/-- C4, amended, at the files `quiet.yaml` (only `verbose: false`) and `port.yaml`
(only `port: 8081`). -/
theorem C4_unset_fields_keep_zero_value_witness :
    initConfig testViper "quiet.yaml" = (⟨0, false⟩, none) ∧
      initConfig testViper "port.yaml" = (⟨8081, false⟩, none) :=
  ⟨(C4_unset_fields_keep_zero_value testViper "quiet.yaml" ⟨none, some (.bool false)⟩
      (by decide) (by rfl)).1 rfl false (by decide),
   (C4_unset_fields_keep_zero_value testViper "port.yaml" ⟨some (.int 8081), none⟩
      (by decide) (by rfl)).2 rfl 8081 (by decide)⟩

/-- C9 as stated fails: `empty.json` exists and has zero bytes, and `initConfig`
returns a non-nil error for it, since zero bytes are not a JSON document. -/
theorem C9_empty_json_file_is_an_error :
    emptyFiles "empty.json" = some "" ∧
      initConfig emptyFilesViper "empty.json"
        = (ServerConfig.zero, some "unexpected end of JSON input") ∧
      (initConfig emptyFilesViper "empty.json").2 ≠ none := by
  decide

/-- C9, amended: an empty (zero-byte) YAML config file is not an error: for a
filename with the extension `yaml` or `yml` naming an existing empty file,
`initConfig` returns a nil error and the config no field of which has been set,
`ServerConfig{}`. -/
theorem C9_empty_yaml_file_is_not_an_error (fs : FileSystem)
    (decode : String → String → Except GoError Settings)
    (decodeInt : Value → Except GoError Int) (decodeBool : Value → Except GoError Bool)
    (filename : String)
    (hty : getConfigType filename = "yaml" ∨ getConfigType filename = "yml")
    (hfile : fs filename = some "") :
    initConfig (viperOn fs decode decodeInt decodeBool) filename = (ServerConfig.zero, none) := by
  have hne : filename ≠ "" := by
    intro h
    subst h
    rcases hty with h | h
    · exact absurd h (by decide)
    · exact absurd h (by decide)
  have hread : (viperOn fs decode decodeInt decodeBool).ReadInConfig filename
      = .ok ⟨none, none⟩ := by
    rcases hty with h | h <;>
      simp [viperOn, ReadInConfigOn, unmarshalReader, SupportedExts, h, hfile]
  exact initConfig_of_no_key _ filename hne hread

/-- C9, amended, at the zero-byte file `empty.yaml`. -/
theorem C9_empty_yaml_file_is_not_an_error_witness :
    initConfig emptyFilesViper "empty.yaml" = (⟨0, false⟩, none) :=
  C9_empty_yaml_file_is_not_an_error emptyFiles noDecode testDecodeInt testDecodeBool
    "empty.yaml" (Or.inl (by decide)) (by decide)

/-! ## Claims about the `Run` pipeline -/

/-- C1, the code at the failing input: the file holds `port: 8081` and
`verbose: true`, no `--port` flag is given so that the port variable holds its
declared default 8080; `initConfig` returns port 8081, and `Run` starts the server
on port 8080.  The same holds for every file and library state: with the port
variable at its default, a run that gets to the start is on port 8080. -/
theorem C1_file_port_replaced_by_flag_default :
    initConfig testViper "all.yaml" = (⟨8081, true⟩, none) ∧
      (Run testViper ⟨"all.yaml", flagDefaults.port, flagDefaults.verbose⟩ freshProcess).port
        = some 8080 ∧
      (Run testViper ⟨"all.yaml", flagDefaults.port, flagDefaults.verbose⟩ freshProcess).verbose
        = some true ∧
      ∀ (v : Viper) (cfgFile : String) (verbose : Bool) (p : Process) (q : Int),
        (Run v ⟨cfgFile, flagDefaults.port, verbose⟩ p).port = some q → q = 8080 := by
  refine ⟨by decide, by decide, by decide, ?_⟩
  intro v cfgFile verbose p q hq
  rcases hic : initConfig v cfgFile with ⟨c, _ | e⟩
  · have h := Run_port v ⟨cfgFile, flagDefaults.port, verbose⟩ p c hic
    rw [h] at hq
    simp [flagDefaults] at hq
    exact hq.symm
  · simp [Run, hic, RunResult.port] at hq

/-- C5: with a non-zero port flag value and a config returned by `initConfig`
without error, `Run` starts the server on the flag's port; the `Verbose` field is
the one `initConfig` returned, and it and the global log level are the same as in
the run with any other value `q` of the port flag (0, the default 8080, ...). -/
theorem C5_port_override_wins_and_only_port (v : Viper) (f : Flags) (p : Process)
    (c : ServerConfig) (q : Int)
    (hport : f.port ≠ 0) (hok : initConfig v f.cfgFile = (c, none)) :
    (Run v f p).port = some f.port ∧
      (Run v f p).verbose = some c.Verbose ∧
      (Run v f p).verbose = (Run v ⟨f.cfgFile, q, f.verbose⟩ p).verbose ∧
      (Run v f p).level = (Run v ⟨f.cfgFile, q, f.verbose⟩ p).level := by
  refine ⟨?_, Run_verbose v f p c hok, ?_, ?_⟩
  · rw [Run_port v f p c hok, if_pos hport]
  · rw [Run_verbose v f p c hok, Run_verbose v ⟨f.cfgFile, q, f.verbose⟩ p c hok]
  · rw [Run_level v f p c hok, Run_level v ⟨f.cfgFile, q, f.verbose⟩ p c hok]

/-- C5 at no file and `--port 9090`: port 9090, verbose false, level Info as in the
run without the flag. -/
theorem C5_port_override_wins_and_only_port_witness :
    (Run testViper ⟨"", 9090, false⟩ freshProcess).port = some 9090 ∧
      (Run testViper ⟨"", 9090, false⟩ freshProcess).verbose = some false ∧
      (Run testViper ⟨"", 9090, false⟩ freshProcess).verbose
        = (Run testViper ⟨"", 8080, false⟩ freshProcess).verbose ∧
      (Run testViper ⟨"", 9090, false⟩ freshProcess).level
        = (Run testViper ⟨"", 8080, false⟩ freshProcess).level :=
  C5_port_override_wins_and_only_port testViper ⟨"", 9090, false⟩ freshProcess ⟨8080, false⟩
    8080 (by decide) (by rfl)

/-- C6, the code at the failing input: the file holds `verbose: true` and the
verbose flag is given as false; `Run` leaves the global level at Debug, not at
Info.  The same holds for every file and library state: when the config read
from the file has `Verbose` true, a verbose flag of false does not bring the level
to Info. -/
theorem C6_verbose_flag_false_does_not_win :
    (initConfig testViper "verbose.yaml").1.Verbose = true ∧
      (Run testViper ⟨"verbose.yaml", 8080, false⟩ freshProcess).level
        = some Level.DebugLevel ∧
      (Run testViper ⟨"verbose.yaml", 8080, false⟩ freshProcess).level
        ≠ some Level.InfoLevel ∧
      ∀ (v : Viper) (cfgFile : String) (port : Int) (p : Process) (c : ServerConfig),
        initConfig v cfgFile = (c, none) → c.Verbose = true →
          (Run v ⟨cfgFile, port, false⟩ p).level = some Level.DebugLevel := by
  refine ⟨by decide, by decide, by decide, ?_⟩
  intro v cfgFile port p c hok hv
  rw [Run_level v ⟨cfgFile, port, false⟩ p c hok]
  simp [hv]

/-- C7: a run in which `initConfig` reports no error returns, and the global log
level it leaves is Debug exactly when the config's `Verbose` or the verbose flag is
true, and Info exactly when neither is, whatever the level was before the run. -/
theorem C7_global_level_after_run (v : Viper) (f : Flags) (p : Process) (c : ServerConfig)
    (hok : initConfig v f.cfgFile = (c, none)) :
    ∃ config p', Run v f p = .returned config p' ∧
      (p'.globalLevel = Level.DebugLevel ↔ (c.Verbose = true ∨ f.verbose = true)) ∧
      (p'.globalLevel = Level.InfoLevel ↔ ¬ (c.Verbose = true ∨ f.verbose = true)) := by
  obtain ⟨config, p', hr⟩ := Run_returns v f p c hok
  have hl := Run_level v f p c hok
  rw [hr] at hl
  simp only [RunResult.level, Option.some.injEq] at hl
  refine ⟨config, p', hr, ?_, ?_⟩
  · rw [hl]
    cases c.Verbose <;> cases f.verbose <;> simp
  · rw [hl]
    cases c.Verbose <;> cases f.verbose <;> simp

/-- C7 at a run with the default flags that follows a run with `--verbose`: the
earlier run left Debug, the later one resets the level to Info. -/
theorem C7_global_level_after_run_witness :
    (Run testViper ⟨"", 8080, true⟩ freshProcess).level = some Level.DebugLevel ∧
      ∃ config p',
        Run testViper flagDefaults (Run testViper ⟨"", 8080, true⟩ freshProcess).process
          = .returned config p' ∧
        (p'.globalLevel = Level.DebugLevel ↔ (false = true ∨ flagDefaults.verbose = true)) ∧
        (p'.globalLevel = Level.InfoLevel ↔ ¬ (false = true ∨ flagDefaults.verbose = true)) :=
  ⟨by decide,
   C7_global_level_after_run testViper flagDefaults
     (Run testViper ⟨"", 8080, true⟩ freshProcess).process ⟨8080, false⟩ (by rfl)⟩

/-- C8: with the port flag value 0 the server is started on the `Port` that
`initConfig` returned: the default 8080 when no file is requested, and the port
decoded from the file when a file sets one. -/
theorem C8_port_zero_is_flag_not_given (v : Viper) (cfgFile : String) (verbose : Bool)
    (p : Process) (c : ServerConfig)
    (hok : initConfig v cfgFile = (c, none)) :
    (Run v ⟨cfgFile, 0, verbose⟩ p).port = some c.Port ∧
      (cfgFile = "" → (Run v ⟨cfgFile, 0, verbose⟩ p).port = some 8080) ∧
      (∀ s x q, cfgFile ≠ "" → v.ReadInConfig cfgFile = .ok s → s.port = some x →
        v.decodeInt x = .ok q → (Run v ⟨cfgFile, 0, verbose⟩ p).port = some q) := by
  have hp : (Run v ⟨cfgFile, 0, verbose⟩ p).port = some c.Port := by
    rw [Run_port v ⟨cfgFile, 0, verbose⟩ p c hok]
    simp
  refine ⟨hp, ?_, ?_⟩
  · intro he
    subst he
    rw [hp]
    have h2 := initConfig_no_file v
    rw [hok] at h2
    simp only [Prod.mk.injEq] at h2
    rw [h2.1]
  · intro s x q hne hread hsome hdec
    rw [hp]
    have h := initConfig_of_read v cfgFile s hne hread
    rw [hok] at h
    simp only [Unmarshal, decodeIntField, hsome, hdec, ServerConfig.zero] at h
    rcases hb : decodeBoolField v s.verbose false with ⟨b, _ | e⟩
    · rw [hb] at h
      simp only [joinErrors, Prod.mk.injEq] at h
      rw [h.1]
    · rw [hb] at h
      simp [joinErrors] at h

/-- C8 at the file holding `port: 8081` and `verbose: true` with `--port 0`, and at
no file with `--port 0`. -/
theorem C8_port_zero_is_flag_not_given_witness :
    (Run testViper ⟨"all.yaml", 0, false⟩ freshProcess).port = some 8081 ∧
      (Run testViper ⟨"", 0, false⟩ freshProcess).port = some 8080 :=
  ⟨(C8_port_zero_is_flag_not_given testViper "all.yaml" false freshProcess ⟨8081, true⟩
      (by rfl)).1,
   (C8_port_zero_is_flag_not_given testViper "" false freshProcess ⟨8080, false⟩
      (by rfl)).2.1 rfl⟩

end ExposedServer

namespace testsdetection

/-- C10: for every combination of the two build markers `MustBeTesting` panics
exactly when both markers are absent and returns, leaving the process state as it
was, exactly when one is present; calling it again and again gives the outcome of
the single call. -/
theorem C10_MustBeTesting_panics_iff_no_marker {σ : Type} (m : Markers) (s : σ) :
    ((∃ r, MustBeTesting m s = .panicked r) ↔
        (m.testing = false ∧ m.integrationtests = false)) ∧
      (MustBeTesting m s = .returned s ↔
        (m.testing = true ∨ m.integrationtests = true)) ∧
      ∀ n, MustBeTestingRepeated m n s = MustBeTesting m s := by
  rcases m with ⟨a, b⟩
  refine ⟨?_, ?_, ?_⟩
  · cases a <;> cases b <;> simp [MustBeTesting]
  · cases a <;> cases b <;> simp [MustBeTesting]
  · intro n
    induction n with
    | zero => rfl
    | succ k ih =>
      cases a <;> cases b <;> simp_all [MustBeTestingRepeated, MustBeTesting]

end testsdetection
